import Mathlib

/-!
Shallow embedding of the Emergency-Agent repository (four Python files:
agent-production.py, agent-basic.py, backend-api.py, db_mssql.py) and
proofs of the specified properties.  External services (the inference
provider, the media platform token signer, the relational store) are
modelled as parameters; everything the repository itself computes is
translated directly from the source.
-/

namespace EmergencyAgent

/-! ### Python string helpers

Python operations used by the source: lower-casing, the substring test
(the membership operator on strings), truthiness of optional strings, and
whitespace stripping.  Characters are modelled by the Lean Char type;
lower-casing matches Python on the ASCII range used by the keyword set. -/

/-- Model of the Python lower() method (ASCII range). -/
def pyLower (s : String) : String :=
  String.mk (s.toList.map Char.toLower)

/-- Helper: the needle occurs at the head of the haystack. -/
def matchesAt : List Char → List Char → Bool
  | [], _ => true
  | _ :: _, [] => false
  | c :: cs, d :: ds => c == d && matchesAt cs ds

/-- Helper: the needle occurs somewhere in the haystack. -/
def containsSub (needle : List Char) : List Char → Bool
  | [] => matchesAt needle []
  | d :: ds => matchesAt needle (d :: ds) || containsSub needle ds

/-- Model of the Python membership test on strings: needle appears as a
contiguous substring of the haystack. -/
def pyIn (needle hay : String) : Bool :=
  containsSub needle.toList hay.toList

/-- Truthiness of an optional string in Python: None and the empty string
are falsy, every other string is truthy. -/
def pyFalsy : Option String → Bool
  | none => true
  | some s => s == ""

/-- Characters removed by the Python strip() method and recognised by
isspace(), restricted to the code points the repository can feed it. -/
def pyIsSpace (c : Char) : Bool :=
  c == ' ' || c == '\t' || c == '\n' || c == '\r' ||
  c == '\x0b' || c == '\x0c' ||
  c == '\x1c' || c == '\x1d' || c == '\x1e' || c == '\x1f' || c == '\x85'

/-- Model of the Python strip() method with no arguments: drop leading and
trailing whitespace. -/
def pyStrip (s : String) : String :=
  String.mk (((s.toList.dropWhile pyIsSpace).reverse.dropWhile pyIsSpace).reverse)

/-! ### agent-production.py — EmergencyCallHandler

The per-call mutable state of the production agent, and its two message
observers, translated as pure state-transition functions.  The start time
captured from the clock at construction is an opaque timestamp.  Logging
calls do not change the state and are omitted. -/

/-- State of EmergencyCallHandler: start_time, messages_exchanged,
emergency_type, location, casualties, is_escalated. -/
structure CallHandlerState where
  start_time : Nat
  messages_exchanged : Nat
  emergency_type : Option String
  location : Option String
  casualties : Nat
  is_escalated : Bool
deriving DecidableEq, Repr

/-- The constructor of EmergencyCallHandler: counters at zero, both
classification fields unset, escalation flag false. -/
def initHandler (now : Nat) : CallHandlerState :=
  { start_time := now
    messages_exchanged := 0
    emergency_type := none
    location := none
    casualties := 0
    is_escalated := false }

/-- The fixed critical-symptom keyword list scanned by on_caller_message. -/
def criticalKeywords : List String :=
  ["heart", "chest pain", "can\x27t breathe", "choking"]

/-- EmergencyCallHandler.on_caller_message: if any keyword occurs in the
lower-cased text, set emergency_type to CRITICAL_MEDICAL and is_escalated
to true; otherwise the state is unchanged (the remaining statements only
log). -/
def on_caller_message (s : CallHandlerState) (text : String) : CallHandlerState :=
  if criticalKeywords.any (fun keyword => pyIn keyword (pyLower text)) then
    { s with emergency_type := some "CRITICAL_MEDICAL", is_escalated := true }
  else
    s

/-- EmergencyCallHandler.on_agent_response: increment the
messages_exchanged counter (the rest of the body only logs). -/
def on_agent_response (s : CallHandlerState) (_text : String) : CallHandlerState :=
  { s with messages_exchanged := s.messages_exchanged + 1 }

/-- A sequence of caller messages processed in order. -/
def processMessages (s : CallHandlerState) (texts : List String) : CallHandlerState :=
  texts.foldl on_caller_message s

/-- Shared step lemma: one caller message never clears the escalation
flag. -/
theorem on_caller_message_keeps_escalated (s : CallHandlerState) (text : String)
    (h : s.is_escalated = true) :
    (on_caller_message s text).is_escalated = true := by
  unfold on_caller_message
  split <;> simp [h]

/-- C1: a caller message whose lower-cased text contains one of the
critical keywords sets is_escalated to true and emergency_type to
CRITICAL_MEDICAL; a message containing none of them leaves both fields
unset when they were unset before. -/
theorem caller_message_escalation (s : CallHandlerState) (text : String) :
    (criticalKeywords.any (fun keyword => pyIn keyword (pyLower text)) = true →
      (on_caller_message s text).is_escalated = true ∧
      (on_caller_message s text).emergency_type = some "CRITICAL_MEDICAL") ∧
    (criticalKeywords.any (fun keyword => pyIn keyword (pyLower text)) = false →
      s.is_escalated = false → s.emergency_type = none →
      (on_caller_message s text).is_escalated = false ∧
      (on_caller_message s text).emergency_type = none) := by
  unfold on_caller_message
  constructor
  · intro hmatch
    simp [hmatch]
  · intro hmiss hesc hty
    simp [hmiss, hesc, hty]

/-- Witness for C1 at concrete inputs: the phrase about chest pain
escalates a fresh handler, and a harmless phrase leaves it unset. -/
theorem caller_message_escalation_witness :
    ((on_caller_message (initHandler 0) "I have severe CHEST PAIN").is_escalated = true ∧
      (on_caller_message (initHandler 0) "I have severe CHEST PAIN").emergency_type =
        some "CRITICAL_MEDICAL") ∧
    ((on_caller_message (initHandler 0) "hello there").is_escalated = false ∧
      (on_caller_message (initHandler 0) "hello there").emergency_type = none) := by
  refine ⟨(caller_message_escalation (initHandler 0) "I have severe CHEST PAIN").1 (by decide),
    (caller_message_escalation (initHandler 0) "hello there").2 (by decide) (by decide) (by decide)⟩

/-- C2: escalation is monotonic: once is_escalated is true, no sequence of
further caller messages resets it. -/
theorem escalation_monotonic (s : CallHandlerState) (texts : List String)
    (h : s.is_escalated = true) :
    (processMessages s texts).is_escalated = true := by
  induction texts generalizing s with
  | nil => simpa [processMessages] using h
  | cons t ts ih =>
    simpa [processMessages] using
      ih (on_caller_message s t) (on_caller_message_keeps_escalated s t h)

/-- Witness for C2: an escalated handler stays escalated across a concrete
message sequence, including text with no keyword. -/
theorem escalation_monotonic_witness :
    (processMessages (on_caller_message (initHandler 0) "choking") ["all fine now", "thanks"]).is_escalated = true := by
  exact escalation_monotonic (on_caller_message (initHandler 0) "choking")
    ["all fine now", "thanks"] (by decide)

/-- C10: on_caller_message changes at most emergency_type and is_escalated
(start_time, messages_exchanged, location, casualties are untouched), and
on_agent_response increments messages_exchanged by exactly one. -/
theorem handler_frame_conditions (s : CallHandlerState) (text : String) :
    (on_caller_message s text).start_time = s.start_time ∧
    (on_caller_message s text).messages_exchanged = s.messages_exchanged ∧
    (on_caller_message s text).location = s.location ∧
    (on_caller_message s text).casualties = s.casualties ∧
    (on_agent_response s text).messages_exchanged = s.messages_exchanged + 1 ∧
    (on_agent_response s text).start_time = s.start_time ∧
    (on_agent_response s text).emergency_type = s.emergency_type ∧
    (on_agent_response s text).location = s.location ∧
    (on_agent_response s text).casualties = s.casualties ∧
    (on_agent_response s text).is_escalated = s.is_escalated := by
  unfold on_caller_message on_agent_response
  split <;> simp

/-! ### backend-api.py — get_token

The token-issuance route.  The request body is modelled by the two fields
the handler reads; the media platform signer (AccessToken ... to_jwt) is a
parameter receiving exactly the grant the handler builds.  The exception
branch of the route (malformed body, signer failure) is outside the pure
model and outside the claims. -/

/-- The fields of the JSON request body read by get_token: data.get may
yield a value or None. -/
structure TokenRequest where
  identity : Option String
  room : Option String
deriving DecidableEq

/-- The capability grant placed on the token: VideoGrants as built in
get_token. -/
structure VideoGrants where
  room_join : Bool
  room : String
  can_publish : Bool
  can_subscribe : Bool
  can_publish_data : Bool
deriving DecidableEq

/-- Everything get_token sets on the access token before signing:
identity, display name, metadata, grants. -/
structure AccessTokenSpec where
  identity : String
  name : String
  metadata : List (String × String)
  grants : VideoGrants
deriving DecidableEq

/-- The JSON body returned by get_token: the success shape with token,
url and room, or the error shape. -/
inductive TokenBody where
  | withToken (token : String) (url : String) (room : String)
  | withError (error : String)
deriving DecidableEq

/-- get_token: reject with 400 when identity or room is missing or empty
(Python truthiness), otherwise sign the grant and return 200 with the
token, the platform URL and the room echoed back. -/
def get_token (toJwt : AccessTokenSpec → String) (livekitUrl : String)
    (data : TokenRequest) : Nat × TokenBody :=
  if pyFalsy data.identity || pyFalsy data.room then
    (400, .withError "Missing identity or room")
  else
    let i := data.identity.getD ""
    let r := data.room.getD ""
    let token := toJwt
      { identity := i
        name := i
        metadata := [("role", "caller"), ("call_type", "emergency")]
        grants :=
          { room_join := true
            room := r
            can_publish := true
            can_subscribe := true
            can_publish_data := true } }
    (200, .withToken token livekitUrl r)

/-- C3: with identity caller-1 and room room-9 the route returns 200 with
a non-empty token and the room echoed; omitting identity, or omitting
room, returns 400 with the fixed error body. -/
theorem get_token_validation (toJwt : AccessTokenSpec → String) (livekitUrl : String)
    (hsign : ∀ g : AccessTokenSpec, toJwt g ≠ "") :
    ((get_token toJwt livekitUrl { identity := some "caller-1", room := some "room-9" }).1 = 200 ∧
      ∃ t : String, t ≠ "" ∧
        (get_token toJwt livekitUrl { identity := some "caller-1", room := some "room-9" }).2 =
          .withToken t livekitUrl "room-9") ∧
    get_token toJwt livekitUrl { identity := none, room := some "room-9" } =
      (400, .withError "Missing identity or room") ∧
    get_token toJwt livekitUrl { identity := some "caller-1", room := none } =
      (400, .withError "Missing identity or room") := by
  refine ⟨⟨rfl, ?_⟩, rfl, rfl⟩
  refine ⟨toJwt
    { identity := "caller-1"
      name := "caller-1"
      metadata := [("role", "caller"), ("call_type", "emergency")]
      grants :=
        { room_join := true
          room := "room-9"
          can_publish := true
          can_subscribe := true
          can_publish_data := true } }, hsign _, rfl⟩

/-- Witness for C3 with a concrete signer that, like any JWT encoder,
never returns an empty string. -/
theorem get_token_validation_witness :
    ((get_token (fun _ => "signed-jwt") "wss://lk.example"
        { identity := some "caller-1", room := some "room-9" }).1 = 200 ∧
      ∃ t : String, t ≠ "" ∧
        (get_token (fun _ => "signed-jwt") "wss://lk.example"
          { identity := some "caller-1", room := some "room-9" }).2 =
            .withToken t "wss://lk.example" "room-9") ∧
    get_token (fun _ => "signed-jwt") "wss://lk.example"
        { identity := none, room := some "room-9" } =
      (400, .withError "Missing identity or room") ∧
    get_token (fun _ => "signed-jwt") "wss://lk.example"
        { identity := some "caller-1", room := none } =
      (400, .withError "Missing identity or room") := by
  exact get_token_validation (fun _ => "signed-jwt") "wss://lk.example"
    (fun g h => absurd h (by simp))

/-! ### db_mssql.py — create_incident and write_call_metrics

The persistence module.  A pyodbc session is modelled as the trace of
operations issued on the connection, and each bound SQL parameter as a
tagged value (pyodbc maps Python None to NULL).  Floating-point inputs
are only passed through, never computed with, so their carrier is Int. -/

/-- A bound SQL parameter: a string, an int coercion, a float coercion, or
the absent-value marker NULL coming from Python None. -/
inductive SqlValue where
  | text (v : String)
  | intVal (v : Int)
  | floatVal (v : Int)
  | null
deriving DecidableEq, Repr

/-- An operation issued on the pyodbc connection or cursor. -/
inductive DbOp where
  | insertStmt (table : String) (params : List SqlValue)
  | commit
  | selectStmt (query : String)
  | fetchRow
deriving DecidableEq, Repr

/-- DbOp classifier: insert statements. -/
def DbOp.isInsert : DbOp → Bool
  | .insertStmt _ _ => true
  | _ => false

/-- DbOp classifier: commits. -/
def DbOp.isCommit : DbOp → Bool
  | .commit => true
  | _ => false

/-- Confidence block of a CallInfo: the optional overall score. -/
structure Confidence where
  overall : Option Int
deriving DecidableEq

/-- CallInfo as consumed by create_incident. -/
structure CallInfo where
  call_type : Option String
  incident_type : Option String
  location : Option String
  caller_name : Option String
  confidence : Confidence
deriving DecidableEq

/-- An optional string parameter: Python None binds as NULL. -/
def optText : Option String → SqlValue
  | some v => .text v
  | none => .null

/-- The nine parameters bound by the insert in create_incident, in
statement order; dump models json.dumps of info.model_dump(), and the
Python expression (overall or 0.0) maps a missing score to zero. -/
def incidentRow (dump : CallInfo → String) (call_id language : String)
    (info : CallInfo) (transcript_text : String) : List SqlValue :=
  [ .text call_id
  , .text language
  , optText info.call_type
  , optText info.incident_type
  , optText info.location
  , optText info.caller_name
  , .floatVal (info.confidence.overall.getD 0)
  , .text (dump info)
  , .text transcript_text ]

/-- The identity-readback query text issued after the commit. -/
def identityQuery : String :=
  "SELECT CAST(SCOPE_IDENTITY() AS INT)"

/-- create_incident: one parameterized insert, one commit, then the
identity readback; storeIdentity is the value SCOPE_IDENTITY yields,
returned cast to Int. -/
def create_incident (dump : CallInfo → String) (storeIdentity : Int)
    (call_id language : String) (info : CallInfo) (transcript_text : String) :
    List DbOp × Int :=
  ( [ .insertStmt "dbo.Incidents" (incidentRow dump call_id language info transcript_text)
    , .commit
    , .selectStmt identityQuery
    , .fetchRow ]
  , storeIdentity )

/-- Metrics as consumed by write_call_metrics. -/
structure Metrics where
  call_id : String
  started_at_unix : Int
  ended_at_unix : Option Int
  user_turns : Int
  agent_turns : Int
  stt_final_count : Int
  stt_interim_count : Int
  extraction_updates : Int
  incident_created : Bool
  incident_id : Option Int
deriving DecidableEq

/-- The ten parameters bound by the insert in write_call_metrics, in
statement order: optional floats and ints bind as NULL when None, and the
boolean flag binds as 1 or 0. -/
def callMetricsRow (m : Metrics) : List SqlValue :=
  [ .text m.call_id
  , .floatVal m.started_at_unix
  , match m.ended_at_unix with
    | some v => .floatVal v
    | none => .null
  , .intVal m.user_turns
  , .intVal m.agent_turns
  , .intVal m.stt_final_count
  , .intVal m.stt_interim_count
  , .intVal m.extraction_updates
  , .intVal (if m.incident_created then 1 else 0)
  , match m.incident_id with
    | some v => .intVal v
    | none => .null ]

/-- write_call_metrics: one parameterized insert of the ten columns, then
a commit. -/
def write_call_metrics (m : Metrics) : List DbOp :=
  [ .insertStmt "dbo.CallMetrics" (callMetricsRow m), .commit ]

/-- C4: write_call_metrics binds incident_created as 1 when true and 0
when false, and binds incident_id and ended_at_unix as NULL when the
optional input is unset, never as the number zero. -/
theorem write_call_metrics_bindings (m : Metrics) :
    (m.incident_created = true → (callMetricsRow m)[8]? = some (.intVal 1)) ∧
    (m.incident_created = false → (callMetricsRow m)[8]? = some (.intVal 0)) ∧
    (m.incident_id = none →
      (callMetricsRow m)[9]? = some .null ∧
      (callMetricsRow m)[9]? ≠ some (.intVal 0)) ∧
    (m.ended_at_unix = none →
      (callMetricsRow m)[2]? = some .null ∧
      (callMetricsRow m)[2]? ≠ some (.floatVal 0)) ∧
    (write_call_metrics m)[0]? = some (.insertStmt "dbo.CallMetrics" (callMetricsRow m)) := by
  refine ⟨?_, ?_, ?_, ?_, rfl⟩
  · intro h; simp [callMetricsRow, h]
  · intro h; simp [callMetricsRow, h]
  · intro h; simp [callMetricsRow, h]
  · intro h; simp [callMetricsRow, h]

/-- Witness for C4 at two concrete Metrics values: one with the flag set
and both optionals present, one with the flag clear and both unset. -/
theorem write_call_metrics_bindings_witness :
    ((callMetricsRow
        { call_id := "c1", started_at_unix := 10, ended_at_unix := some 20
          user_turns := 3, agent_turns := 4, stt_final_count := 5
          stt_interim_count := 6, extraction_updates := 2
          incident_created := true, incident_id := some 7 })[8]? =
      some (.intVal 1)) ∧
    ((callMetricsRow
        { call_id := "c2", started_at_unix := 10, ended_at_unix := none
          user_turns := 0, agent_turns := 0, stt_final_count := 0
          stt_interim_count := 0, extraction_updates := 0
          incident_created := false, incident_id := none })[8]? =
      some (.intVal 0)) ∧
    ((callMetricsRow
        { call_id := "c2", started_at_unix := 10, ended_at_unix := none
          user_turns := 0, agent_turns := 0, stt_final_count := 0
          stt_interim_count := 0, extraction_updates := 0
          incident_created := false, incident_id := none })[9]? =
      some .null) := by
  refine ⟨(write_call_metrics_bindings _).1 rfl,
    (write_call_metrics_bindings _).2.1 rfl,
    ((write_call_metrics_bindings
      { call_id := "c2", started_at_unix := 10, ended_at_unix := none
        user_turns := 0, agent_turns := 0, stt_final_count := 0
        stt_interim_count := 0, extraction_updates := 0
        incident_created := false, incident_id := none }).2.2.1 rfl).1⟩

/-- C8: create_incident issues exactly one insert and exactly one commit,
the insert strictly before the commit, and returns the store-generated
identity value as an integer. -/
theorem create_incident_trace (dump : CallInfo → String) (storeIdentity : Int)
    (call_id language : String) (info : CallInfo) (transcript_text : String) :
    ((create_incident dump storeIdentity call_id language info transcript_text).1.countP
        (fun op => op.isInsert) = 1) ∧
    ((create_incident dump storeIdentity call_id language info transcript_text).1.countP
        (fun op => op.isCommit) = 1) ∧
    ((create_incident dump storeIdentity call_id language info transcript_text).1[0]? =
      some (.insertStmt "dbo.Incidents"
        (incidentRow dump call_id language info transcript_text))) ∧
    ((create_incident dump storeIdentity call_id language info transcript_text).1[1]? =
      some .commit) ∧
    ((create_incident dump storeIdentity call_id language info transcript_text).1[2]? =
      some (.selectStmt identityQuery)) ∧
    ((create_incident dump storeIdentity call_id language info transcript_text).2 =
      storeIdentity) := by
  refine ⟨?_, ?_, rfl, rfl, rfl, rfl⟩
  · simp [create_incident, List.countP, List.countP.go, DbOp.isInsert]
  · simp [create_incident, List.countP, List.countP.go, DbOp.isCommit]

/-! ### agent-basic.py — GroqSTT, GroqTTS, EmergencyAgentLLM

The three hand-written adapters of the prototype agent.  Each network
call to the inference provider is a parameter returning Except: the error
case models any exception the call can raise, and each adapter's result
records whether the provider endpoint was actually contacted where the
claims need it.  Bytes are Nat values below 256. -/

/-- An audio frame in the recognition buffer: its raw data bytes. -/
structure AudioFrame where
  data : List Nat
deriving DecidableEq

/-- The recognition-side audio buffer: the frames that get_frames
yields. -/
structure RecBuffer where
  frames : List AudioFrame
deriving DecidableEq

/-- A recognition segment: text, fixed confidence, finality flag. -/
structure STTSegment where
  text : String
  confidence : ℚ
  is_final : Bool
deriving DecidableEq

/-- GroqSTT.arecognize: empty frame list yields no segment; concatenated
audio under 100 bytes yields no segment; otherwise the transcription
endpoint is called, a non-empty transcript becomes a final segment with
confidence 0.9, and an empty transcript or any exception yields no
segment.  The Bool records whether the endpoint was contacted. -/
def arecognize (api : List Nat → Except String String) (buffer : RecBuffer) :
    Option STTSegment × Bool :=
  let frames := buffer.frames
  if frames.isEmpty then
    (none, false)
  else
    let audio_bytes := (frames.map AudioFrame.data).flatten
    if audio_bytes.length < 100 then
      (none, false)
    else
      match api audio_bytes with
      | .ok t =>
          if t ≠ "" then
            (some { text := t, confidence := 9 / 10, is_final := true }, true)
          else
            (none, true)
      | .error _ => (none, true)

/-- C5: a buffer whose concatenated frame bytes total fewer than 100
bytes yields no segment, and the transcription endpoint is never
contacted. -/
theorem arecognize_short_audio (api : List Nat → Except String String)
    (buffer : RecBuffer)
    (h : ((buffer.frames.map AudioFrame.data).flatten).length < 100) :
    arecognize api buffer = (none, false) := by
  unfold arecognize
  by_cases hf : buffer.frames.isEmpty
  · simp [hf]
  · rw [List.length_flatten, List.map_map] at h
    simp [hf]
    intro hge
    omega

/-- Witness for C5: a two-frame buffer of 30 bytes total yields no
segment even when the provider would answer. -/
theorem arecognize_short_audio_witness :
    arecognize (fun _ => .ok "hello") { frames := [⟨List.replicate 10 0⟩, ⟨List.replicate 20 1⟩] } =
      (none, false) := by
  exact arecognize_short_audio (fun _ => .ok "hello")
    { frames := [⟨List.replicate 10 0⟩, ⟨List.replicate 20 1⟩] } (by decide)

/-- C9: a buffer with no frames at all yields no segment without the
endpoint being contacted; this guard fires before the byte-count guard is
even evaluated. -/
theorem arecognize_empty_frames (api : List Nat → Except String String)
    (buffer : RecBuffer) (h : buffer.frames = []) :
    arecognize api buffer = (none, false) := by
  unfold arecognize
  simp [h]

/-- Witness for C9 at the empty buffer. -/
theorem arecognize_empty_frames_witness :
    arecognize (fun _ => .ok "hello") { frames := [] } = (none, false) := by
  exact arecognize_empty_frames (fun _ => .ok "hello") { frames := [] } rfl

/-- A synthesis-side audio buffer: data bytes, sample rate, channel
count, as constructed by agents.AudioBuffer in the source (data defaults
to empty). -/
structure SynthBuffer where
  data : List Nat
  sample_rate : Nat
  num_channels : Nat
deriving DecidableEq

/-- A pending text segment handed to the synthesis adapter. -/
structure TextSegment where
  text : String
deriving DecidableEq

/-- GroqTTS.asynthesizes: concatenate the segment texts; if the result
strips to empty, return the empty 24 kHz mono buffer without calling the
endpoint; otherwise call the endpoint and wrap its bytes, and on any
exception return the same empty 24 kHz mono buffer. -/
def asynthesizes (api : String → Except String (List Nat))
    (segments : List TextSegment) : SynthBuffer :=
  let full_text := String.join (segments.map TextSegment.text)
  if pyStrip full_text = "" then
    { data := [], sample_rate := 24000, num_channels := 1 }
  else
    match api full_text with
    | .ok content => { data := content, sample_rate := 24000, num_channels := 1 }
    | .error _ => { data := [], sample_rate := 24000, num_channels := 1 }

/-- C6: when the concatenated text is empty or whitespace-only the
adapter returns the zero-length 24 kHz mono buffer, and any failure of
the synthesis call returns that same buffer instead of raising. -/
theorem asynthesizes_safe_defaults (api : String → Except String (List Nat))
    (segments : List TextSegment) :
    (pyStrip (String.join (segments.map TextSegment.text)) = "" →
      asynthesizes api segments = { data := [], sample_rate := 24000, num_channels := 1 }) ∧
    (∀ e : String, api (String.join (segments.map TextSegment.text)) = .error e →
      asynthesizes api segments = { data := [], sample_rate := 24000, num_channels := 1 }) := by
  constructor
  · intro h
    unfold asynthesizes
    simp [h]
  · intro e he
    unfold asynthesizes
    by_cases h : pyStrip (String.join (segments.map TextSegment.text)) = ""
    · simp [h]
    · simp [h, he]

/-- Witness for C6: a whitespace-only segment pair yields the empty
buffer, and a failing provider call on real text yields the same
buffer. -/
theorem asynthesizes_safe_defaults_witness :
    asynthesizes (fun _ => .ok [1, 2, 3]) [⟨"  "⟩, ⟨"\t\n"⟩] =
      { data := [], sample_rate := 24000, num_channels := 1 } ∧
    asynthesizes (fun _ => .error "provider down") [⟨"hello"⟩] =
      { data := [], sample_rate := 24000, num_channels := 1 } := by
  refine ⟨(asynthesizes_safe_defaults (fun _ => .ok [1, 2, 3]) [⟨"  "⟩, ⟨"\t\n"⟩]).1 (by decide),
    (asynthesizes_safe_defaults (fun _ => .error "provider down") [⟨"hello"⟩]).2
      "provider down" rfl⟩

/-- A chat message handed to EmergencyAgentLLM.achat: either a
UserMessage with role and content fields, or any other message whose
Python string rendering is recorded. -/
inductive ChatMsg where
  | user (role : String) (content : String)
  | other (role : String) (rendered : String)
deriving DecidableEq

/-- The provider-shape role and content pair built for one message:
content for a UserMessage, the string rendering otherwise. -/
def toGroqMessage : ChatMsg → String × String
  | .user role content => (role, content)
  | .other role rendered => (role, rendered)

/-- A response message: role and content. -/
structure LLMMessage where
  role : String
  content : String
deriving DecidableEq

/-- The fixed fallback utterance of the response adapter. -/
def fallbackUtterance : String :=
  "I\x27m having trouble processing that. Can you repeat?"

/-- EmergencyAgentLLM.achat: map the history to the provider shape and
call the completion endpoint; on success wrap the returned content as an
assistant message, on any exception return the fixed fallback assistant
message. -/
def achat (api : List (String × String) → Except String String)
    (messages : List ChatMsg) : LLMMessage :=
  match api (messages.map toGroqMessage) with
  | .ok content => { role := "assistant", content := content }
  | .error _ => { role := "assistant", content := fallbackUtterance }

/-- C7: whenever the provider call fails, achat returns the assistant
message with exactly the fixed fallback content; and achat always
returns an assistant-role message, never propagating the failure. -/
theorem achat_failure_fallback (api : List (String × String) → Except String String)
    (messages : List ChatMsg) :
    (∀ e : String, api (messages.map toGroqMessage) = .error e →
      achat api messages = { role := "assistant", content := fallbackUtterance }) ∧
    (achat api messages).role = "assistant" := by
  constructor
  · intro e he
    unfold achat
    simp [he]
  · unfold achat
    cases api (messages.map toGroqMessage) <;> simp

/-- Witness for C7: a failing provider yields the fallback assistant
message on a concrete history. -/
theorem achat_failure_fallback_witness :
    achat (fun _ => .error "timeout") [ChatMsg.user "user" "help me"] =
      { role := "assistant", content := fallbackUtterance } := by
  exact (achat_failure_fallback (fun _ => .error "timeout")
    [ChatMsg.user "user" "help me"]).1 "timeout" rfl

end EmergencyAgent
